import Mathlib

/-
  Verification of the paternoster/uberscript repository.

  Shallow embedding of src/paternoster/types.py and src/uberscript/uberscript.py.
  Python strings are modelled as Lean String (a list of unicode code points,
  matching Python's str semantics); Python exceptions are modelled by the
  PyErr type below; a Python function that may raise is modelled as a
  function into Except PyErr.
-/

set_option maxRecDepth 4000

/-- Python runtime values, as far as this program manipulates them:
None, int, str and bool (the values argparse stores into its namespace). -/
inductive PyVal
| pyNone
| int (n : Int)
| str (s : String)
| bool (b : Bool)
deriving DecidableEq

/-- Python truthiness (`bool(v)`): None, 0, the empty string and False are falsy. -/
def PyVal.truthy : PyVal → Bool
| .pyNone => false
| .int n => n != 0
| .str s => s != ""
| .bool b => b

/-- Python exceptions raised by this program. `unicodeError` models UnicodeError,
which in Python is a subclass of ValueError, so both count as validation
failures to a caller catching ValueError. `systemExit` models
`argparse.ArgumentParser.error` (prints usage and raises SystemExit(2)).
`typeError` models TypeError (an uncaught crash when it escapes). -/
inductive PyErr
| valueError (msg : String)
| unicodeError (msg : String)
| typeError (msg : String)
| systemExit (msg : String)
deriving DecidableEq

/-- Characters Python's int() strips around a numeric literal. -/
def pySpace (c : Char) : Bool :=
  c == ' ' || c == '\t' || c == '\n' || c == '\x0d' || c == '\x0b' || c == '\x0c'

/-- Numeric value of a list of decimal digit characters. -/
def digitsVal (ds : List Char) : Int :=
  ds.foldl (fun a c => a * 10 + Int.ofNat (c.toNat - 48)) 0

/-- Python `int(s)` on a str: strip surrounding whitespace, optional sign,
then decimal digits; anything else raises ValueError with Python's own
"invalid literal" message (this exact message matters: restricted_int
catches only TypeError, so this ValueError propagates to the caller). -/
def pyIntOfString (s : String) : Except PyErr Int :=
  let t := ((s.data.dropWhile pySpace).reverse.dropWhile pySpace).reverse
  let signedDigits :=
    match t with
    | '+' :: r => (1, r)
    | '-' :: r => (-1, r)
    | r => (1, r)
  if !signedDigits.2.isEmpty && signedDigits.2.all Char.isDigit then
    Except.ok (signedDigits.1 * digitsVal signedDigits.2)
  else
    Except.error (PyErr.valueError
      ("invalid literal for int() with base 10: \x27" ++ s ++ "\x27"))

/-- Python `int(v)` on the PyVal universe: ints and bools coerce, strings go
through pyIntOfString, None raises TypeError. -/
def pyIntCoerce : PyVal → Except PyErr Int
| .int n => Except.ok n
| .bool b => Except.ok (if b then 1 else 0)
| .str s => pyIntOfString s
| .pyNone => Except.error (PyErr.typeError
    "int() argument must be a string or a number, not \x27NoneType\x27")

/-- restricted_int.__call__ (src/paternoster/types.py lines 62-73).
The try/except around `int(val)` catches only TypeError and re-raises it
as ValueError("invalid integer"); any other exception from the coercion
(notably the ValueError int() raises on non-numeric text) propagates
unchanged. Then the optional bounds are checked. -/
def restricted_int_call (minimum maximum : Option Int) (val : PyVal) : Except PyErr Int :=
  match pyIntCoerce val with
  | Except.error (PyErr.typeError _) => Except.error (PyErr.valueError "invalid integer")
  | Except.error e => Except.error e
  | Except.ok v =>
    if (minimum.map (fun lo => decide (v < lo))).getD false then
      Except.error (PyErr.valueError
        ("value too small (must be >= " ++ toString (minimum.getD 0) ++ ")"))
    else if (maximum.map (fun hi => decide (v > hi))).getD false then
      Except.error (PyErr.valueError
        ("value too big (must be <= " ++ toString (maximum.getD 0) ++ ")"))
    else Except.ok v

/-- Python re.match for a pattern of the form `A-anchored body then dollar`:
the dollar metacharacter (without re.MULTILINE) matches at the end of the
string OR just before a newline that is the last character.  So
`re.match(pat, s)` succeeds iff the body matches all of `s`, or all of `s`
minus a single trailing newline. -/
def pyMatchDollar (core : List Char → Bool) (s : List Char) : Bool :=
  core s || (s.getLast? == some '\n' && core s.dropLast)

/-- Body of the regex `[allowed]+` built by restricted_str.__init__:
one or more characters, each from the allowed character class (the class
is modelled extensionally as the list of characters it denotes). -/
def charClassMatch (allowedChars : List Char) (s : List Char) : Bool :=
  !s.isEmpty && s.all (fun c => allowedChars.contains c)

/-- Third check of restricted_str.__call__: `self._regex.match(val)` where
the regex is `^[allowed]+$` — note the Python dollar semantics. -/
def restricted_str_regex_step (allowedChars : List Char) (val : String) :
    Except PyErr String :=
  if !pyMatchDollar (charClassMatch allowedChars) val.data then
    Except.error (PyErr.valueError "invalid value")
  else Except.ok val

/-- Second check of restricted_str.__call__: the minlen bound (when set). -/
def restricted_str_min_step (allowedChars : List Char) (minlen : Option Nat)
    (val : String) : Except PyErr String :=
  match minlen with
  | some m =>
    if val.data.length < m then
      Except.error (PyErr.valueError
        ("string is too short (must be >= " ++ toString m ++ ")"))
    else restricted_str_regex_step allowedChars val
  | Option.none => restricted_str_regex_step allowedChars val

/-- restricted_str.__call__ (src/paternoster/types.py lines 42-49):
maxlen check, then minlen check, then the anchored character-class regex;
returns the input unchanged on success. -/
def restricted_str_call (allowedChars : List Char) (minlen maxlen : Option Nat)
    (val : String) : Except PyErr String :=
  match maxlen with
  | some mx =>
    if val.data.length > mx then
      Except.error (PyErr.valueError
        ("string is too long (must be <= " ++ toString mx ++ ")"))
    else restricted_str_min_step allowedChars minlen val
  | Option.none => restricted_str_min_step allowedChars minlen val

/-- ASCII alphanumeric, the `[a-zA-Z0-9]` class of DOMAIN_REGEX. -/
def isAlnumAscii (c : Char) : Bool :=
  (('a' ≤ c) && (c ≤ 'z')) || (('A' ≤ c) && (c ≤ 'Z')) || (('0' ≤ c) && (c ≤ '9'))

/-- Character is in the ASCII range. -/
def isAsciiChar (c : Char) : Bool := c.toNat < 128

/-- CPython encodings/idna.py ToASCII, restricted to its ASCII fast path:
an all-ASCII label is returned unchanged when its length is in [1, 63],
otherwise UnicodeError("label empty or too long") is raised.  The
non-ASCII path (nameprep + punycode) belongs to the Python standard
library, an external collaborator, and is modelled as a failure here;
every input appearing in the claims is ASCII, so this branch is never
exercised by the theorems below. -/
def toASCIILabel (l : List Char) : Except PyErr (List Char) :=
  if l.all isAsciiChar then
    if 0 < l.length && l.length < 64 then Except.ok l
    else Except.error (PyErr.unicodeError "label empty or too long")
  else Except.error (PyErr.unicodeError "nameprep path not modelled")

/-- CPython str.encode(\x27idna\x27): split on dots, remember one trailing
dot, pass every remaining label through ToASCII, re-join with dots. -/
def idnaEncode (s : List Char) : Except PyErr (List Char) :=
  let labels0 := s.splitOn '.'
  let split :=
    match labels0.getLast? with
    | some [] => (labels0.dropLast, (['.'] : List Char))
    | _ => (labels0, ([] : List Char))
  match split.1.mapM toASCIILabel with
  | Except.error e => Except.error e
  | Except.ok ls => Except.ok ((List.intercalate ['.'] ls) ++ split.2)

/-- One label of DOMAIN_REGEX (src/paternoster/types.py line 7): a single
alphanumeric character, or a string starting and ending with alphanumeric
characters whose interior characters are alphanumerics or hyphens. -/
def labelOk : List Char → Bool
| [] => false
| c :: cs =>
  isAlnumAscii c &&
  (match (c :: cs).getLast? with
   | some d => isAlnumAscii d
   | Option.none => false) &&
  (c :: cs).all (fun x => isAlnumAscii x || x == '-')

/-- Body of DOMAIN_REGEX: zero or more `label.` groups followed by one
label.  Because labels never contain a dot, a string matches the regex
body iff every dot-separated piece (empty pieces included) satisfies
labelOk. -/
def domainShapeCore (v : List Char) : Bool :=
  (v.splitOn '.').all labelOk

/-- `re.match(DOMAIN_REGEX, v)` with Python dollar semantics. -/
def domainRegexMatch (v : List Char) : Bool :=
  pyMatchDollar domainShapeCore v

/-- `val.startswith("*.")`. -/
def startsWithStarDot : List Char → Bool
| '*' :: '.' :: _ => true
| _ => false

/-- Modelled from the bundled public-suffix snapshot that
`tldextract.TLDExtract(suffix_list_urls=[])` consults (an external data
file of the tldextract package, not part of this repository): a
representative finite set of suffix entries, each a list of labels.
The claims only need that "com" is a public suffix and "invalidtld" is not. -/
def publicSuffixList : List (List String) :=
  [["com"], ["net"], ["org"], ["io"], ["uk"], ["co", "uk"], ["de"]]

/-- Modelled from tldextract: the extracted suffix of a domain is nonempty
iff some trailing run of its (lowercased) dot-separated labels is an entry
of the public-suffix list. -/
def hasPublicSuffix (v : List Char) : Bool :=
  let labels := (v.splitOn '.').map (fun l => String.mk (l.map Char.toLower))
  (List.range labels.length).any (fun k => publicSuffixList.contains (labels.drop k))

/-- domain.__call__ (src/paternoster/types.py lines 12-26): idna-encode the
input, remember the encoded form as the value to return, strip a leading
`*.` for the checks when wildcard mode is on, then check label/total
lengths, the anchored shape regex, and the public-suffix lookup; on
success return the remembered (un-stripped) encoded form. -/
def domain_call (wildcard : Bool) (valIn : String) : Except PyErr String :=
  match idnaEncode valIn.data with
  | Except.error e => Except.error e
  | Except.ok v0 =>
    let dom := v0
    let v := if wildcard && startsWithStarDot v0 then v0.drop 2 else v0
    if (v.splitOn '.').any (fun p => decide (p.length > 63)) || decide (v.length > 255) then
      Except.error (PyErr.valueError "domain too long")
    else if !domainRegexMatch v then
      Except.error (PyErr.valueError "invalid domain")
    else if !hasPublicSuffix v then
      Except.error (PyErr.valueError "invalid domain suffix")
    else Except.ok (String.mk dom)

/-- The Python type objects and validator instances that can appear as the
`type` entry of a parameter spec: the native str and unicode classes, or a
validator instance from paternoster.types (restricted_str carries the
character class it was built with, restricted_int its bounds, domain its
wildcard flag). -/
inductive PyType
| str
| unicode
| validator (allowedChars : List Char) (minlen maxlen : Option Nat)
| intValidator (minimum maximum : Option Int)
| domainValidator (wildcard : Bool)
deriving DecidableEq

/-- Run a validator instance as argparse does: call it on the raw token. -/
def PyType.run : PyType → String → Except PyErr PyVal
| .validator allowedChars mn mx, raw =>
  (restricted_str_call allowedChars mn mx raw).map PyVal.str
| .intValidator lo hi, raw => (restricted_int_call lo hi (PyVal.str raw)).map PyVal.int
| .domainValidator w, raw => (domain_call w raw).map PyVal.str
| .str, raw => Except.ok (PyVal.str raw)
| .unicode, raw => Except.ok (PyVal.str raw)

/-- One parameter spec dict as passed to UberScript: the argparse keyword
arguments this code inspects, plus the uberscript-specific `depends` key. -/
structure ParamSpec where
  type : Option PyType := Option.none
  action : Option String := Option.none
  required : Bool := false
  default : PyVal := PyVal.pyNone
  depends : Option String := Option.none
deriving DecidableEq

/-- One entry of UberScript.parameters: (long name, short name, spec). -/
abbrev Param := String × String × ParamSpec

/-- UberScript._find_param (src/uberscript/uberscript.py lines 45-49):
scan the parameter list, return the first entry whose long or short name
equals the query; Python implicitly returns None when the loop ends. -/
def find_param (parameters : List Param) (fname : String) : Option Param :=
  match parameters with
  | [] => Option.none
  | (name, short, param) :: rest =>
    if name == fname || short == fname then some (name, short, param)
    else find_param rest fname

/-- Argparse actions that store a constant instead of a following value. -/
def flagActions : List String :=
  ["store_true", "store_false", "store_const", "append_const", "count"]

/-- The type/action validation performed by UberScript._build_argparser
(src/uberscript/uberscript.py lines 61-72) as it iterates the parameter
list: a spec whose type is missing or is the native str/unicode class,
combined with a value-storing action (its action, defaulting to "store",
not among the constant/flag actions), raises ValueError at build time.
The argument-group wiring belongs to the external argparse collaborator;
the --verbose flag the builder always adds (lines 74-77) DOES matter to
the variable mapping (it becomes a namespace attribute and hence a
param_verbose entry) and is modelled in initial_namespace and
parse_tokens; the --help flag has default SUPPRESS, stores nothing, and
only prints and exits. -/
def build_argparser (parameters : List Param) : Except PyErr Unit :=
  match parameters with
  | [] => Except.ok ()
  | (_, _, param) :: rest =>
    if (param.type == Option.none || param.type == some PyType.str
          || param.type == some PyType.unicode)
        && !flagActions.contains (param.action.getD "store") then
      Except.error (PyErr.valueError "restricted_str must be used for all string arguments")
    else build_argparser rest

/-- Python getattr(args, n, None) on the parsed argparse namespace,
modelled as an association list from long name to stored value. -/
def getattr_model (args : List (String × PyVal)) (n : String) : PyVal :=
  (args.lookup n).getD PyVal.pyNone

/-- Loop body of UberScript._check_arg_dependencies, carrying the full
parameter list (`all`) for the _find_param lookup.  For each parameter
with a `depends` key whose own parsed value is truthy while the
depended-upon attribute is not, the code evaluates
`self._find_param(param[\x27depends\x27])[1]` while formatting the
parser.error message: when _find_param returned None, that subscript
raises TypeError (the Python 2 message for None[1]); otherwise
parser.error raises SystemExit with the formatted usage message. -/
def check_deps_aux (all : List Param) (args : List (String × PyVal)) :
    List Param → Except PyErr Unit
| [] => Except.ok ()
| (name, short, param) :: rest =>
  match param.depends with
  | Option.none => check_deps_aux all args rest
  | some dep =>
    if (getattr_model args name).truthy && !(getattr_model args dep).truthy then
      match find_param all dep with
      | Option.none => Except.error (PyErr.typeError
          "\x27NoneType\x27 object has no attribute \x27__getitem__\x27")
      | some (_, dshort, _) => Except.error (PyErr.systemExit
          ("argument --" ++ name ++ " (-" ++ short ++ ") requires --" ++ dep
            ++ " (-" ++ dshort ++ ") to be present."))
    else check_deps_aux all args rest

/-- UberScript._check_arg_dependencies (src/uberscript/uberscript.py
lines 81-88). -/
def check_arg_dependencies (parameters : List Param)
    (args : List (String × PyVal)) : Except PyErr Unit :=
  check_deps_aux parameters args parameters

/-- The mutable attributes of an UberScript instance.  __init__ stores
playbook, parameters, success_msg and sets self._sudouser = None; the
attribute self._sudo_user (note the extra underscore — a distinct Python
attribute) does not exist until UberScript.auto assigns it, which is
modelled by it starting as none. -/
structure UberScript where
  playbook : String
  parameters : List Param
  success_msg : String := "executed successfully"
  sudouser : Option String := Option.none
  sudo_user : Option String := Option.none
  parsed_args : List (String × PyVal) := []

/-- UberScript.__init__ (src/uberscript/uberscript.py lines 39-43). -/
def UberScript.init (playbook : String) (parameters : List Param)
    (success_msg : String := "executed successfully") : UberScript :=
  { playbook := playbook, parameters := parameters, success_msg := success_msg }

/-- os.path.basename: the part of the path after the last slash. -/
def basename (p : String) : String :=
  String.mk ((p.data.reverse.takeWhile (fun c => c != '/')).reverse)

/-- UberScript._get_playbook_variables (src/uberscript/uberscript.py
lines 108-113): yield ("sudouser", ...) when self._sudouser is set, then
("scriptname", basename of argv[0]), then one ("param_" + name, value)
entry per attribute of the parsed argparse namespace. -/
def get_playbook_variables (st : UberScript) (argv0 : String) :
    List (String × PyVal) :=
  (match st.sudouser with
   | some u => [("sudouser", PyVal.str u)]
   | Option.none => []) ++
  [("scriptname", PyVal.str (basename argv0))] ++
  st.parsed_args.map (fun p => ("param_" ++ p.1, p.2))

/-- A filesystem entry: a regular file, a directory, or a symbolic link
with its target path. -/
inductive FSNode
| file
| dir
| symlink (target : String)
deriving DecidableEq

/-- A filesystem: a finite map from absolute paths to entries. -/
structure FS where
  entries : List (String × FSNode)
deriving DecidableEq

/-- Direct (lstat-like) lookup of a path, not following symlinks. -/
def FS.lookup (fs : FS) (p : String) : Option FSNode := fs.entries.lookup p

/-- Follow symbolic links, fuel-bounded (a cycle or missing target yields
none, as stat would fail). -/
def resolveNode (fs : FS) : Nat → String → Option FSNode
| 0, _ => Option.none
| n + 1, p =>
  match fs.lookup p with
  | some (FSNode.symlink t) => resolveNode fs n t
  | r => r

/-- os.path.isfile: stat the path FOLLOWING symbolic links and test for a
regular file — a symlink whose final target is a regular file satisfies
isfile. -/
def isfile (fs : FS) (p : String) : Bool :=
  match resolveNode fs (fs.entries.length + 1) p with
  | some FSNode.file => true
  | _ => false

/-- os.path.islink: true exactly on symbolic links (not consulted by the
code under verification; stated to express what a symlink is). -/
def islink (fs : FS) (p : String) : Bool :=
  match fs.lookup p with
  | some (FSNode.symlink _) => true
  | _ => false

/-- os.path.isabs on POSIX: the path starts with a slash. -/
def isabs (p : String) : Bool :=
  match p.data with
  | '/' :: _ => true
  | _ => false

/-- UberScript._check_playbook (src/uberscript/uberscript.py lines
115-121): falsy (empty) playbook, non-absolute path, or a path failing
os.path.isfile each raise ValueError before any execution. -/
def check_playbook (fs : FS) (playbook : String) : Except PyErr Unit :=
  if playbook == "" then
    Except.error (PyErr.valueError "no playbook given")
  else if !isabs playbook then
    Except.error (PyErr.valueError "path to playbook must be absolute")
  else if !isfile fs playbook then
    Except.error (PyErr.valueError "playbook must exist and must not be a link")
  else Except.ok ()

/-- Observable steps of one invocation: a validator run for a named
parameter (with its outcome), the dependency-check pass (with its
outcome), and the handoff to the external runner carrying the variable
mapping it receives. -/
inductive Event
| validate (name : String) (ok : Bool)
| depCheck (ok : Bool)
| handoff (vars : List (String × PyVal))
deriving DecidableEq

/-- Event is a validator run. -/
def Event.isValidate : Event → Bool
| .validate _ _ => true
| _ => false

/-- Write one parsed value into the argparse namespace. -/
def setArg (args : List (String × PyVal)) (n : String) (v : PyVal) :
    List (String × PyVal) :=
  args.map (fun p => if p.1 == n then (p.1, v) else p)

/-- The argparse namespace before any token is processed: every declared
parameter at its default, plus the verbose attribute (default False) from
the --verbose flag that _build_argparser always adds (src/uberscript/
uberscript.py lines 74-77).  The help flag has default SUPPRESS and so
never produces a namespace attribute.  Attribute order follows argparse's
default-setting order: declared parameters in registry order, then
verbose (Python 2 dict iteration order is modelled as this insertion
order; no claim depends on the order, only on the entries). -/
def initial_namespace (parameters : List Param) : List (String × PyVal) :=
  parameters.map (fun t => (t.1, (t.2.2).default)) ++ [("verbose", PyVal.bool false)]

/-- Modelled from argparse (external collaborator), at the granularity the
code relies on: tokens are (flag, raw value) pairs in command-line order;
the always-registered --verbose flag stores True, for any other token
argparse finds the matching parameter, stores True for constant/flag
actions, otherwise calls the declared type callable on the raw value and
stores its result, and on the first callable failure (or an unknown flag)
immediately raises SystemExit via parser.error.  The --help flag (which
prints and exits without touching the namespace) is not modelled.  The
event trace records each validator call and its outcome. -/
def parse_tokens (parameters : List Param) :
    List (String × String) → List (String × PyVal) →
    List Event × Except PyErr (List (String × PyVal))
| [], ns => ([], Except.ok ns)
| (fname, raw) :: rest, ns =>
  if fname == "verbose" then
    parse_tokens parameters rest (setArg ns "verbose" (PyVal.bool true))
  else
    match find_param parameters fname with
    | Option.none =>
      ([], Except.error (PyErr.systemExit ("unrecognized arguments: --" ++ fname)))
    | some (name, _, spec) =>
      if flagActions.contains (spec.action.getD "store") then
        parse_tokens parameters rest (setArg ns name (PyVal.bool true))
      else
        match spec.type with
        | some ty =>
          match ty.run raw with
          | Except.ok value =>
            let p := parse_tokens parameters rest (setArg ns name value)
            (Event.validate name true :: p.1, p.2)
          | Except.error _ =>
            ([Event.validate name false],
             Except.error (PyErr.systemExit
               ("argument --" ++ name ++ ": invalid value: " ++ raw)))
        | Option.none =>
          (parse_tokens parameters rest (setArg ns name (PyVal.str raw)))

/-- UberScript.parse_args (src/uberscript/uberscript.py lines 100-106):
build the parser (which may raise at build time), let argparse parse and
validate the tokens, then run _check_arg_dependencies; the parsed
namespace is stored only when both passes succeed. -/
def parse_args_model (parameters : List Param) (tokens : List (String × String)) :
    List Event × Except PyErr (List (String × PyVal)) :=
  match build_argparser parameters with
  | Except.error e => ([], Except.error e)
  | Except.ok _ =>
    let p := parse_tokens parameters tokens (initial_namespace parameters)
    match p.2 with
    | Except.error e => (p.1, Except.error e)
    | Except.ok ns =>
      match check_arg_dependencies parameters ns with
      | Except.ok _ => (p.1 ++ [Event.depCheck true], Except.ok ns)
      | Except.error e => (p.1 ++ [Event.depCheck false], Except.error e)

/-- The privilege-elevation step of UberScript.auto (src/uberscript/
uberscript.py lines 91-96): on success the become_root result is assigned
to self._sudo_user — NOT to the self._sudouser attribute that
_get_playbook_variables reads; on ValueError the process exits. -/
def auto_elevate (st : UberScript) (becomeRootResult : Except String String) :
    Except PyErr UberScript :=
  match becomeRootResult with
  | Except.ok u => Except.ok { st with sudo_user := some u }
  | Except.error m => Except.error (PyErr.systemExit m)

/-- UberScript.execute_playbook (src/uberscript/uberscript.py lines
164-171): re-validate the playbook path, then build the executor (which
receives the variable mapping from _get_playbook_variables — the handoff
event) and run it; the run result is True exactly on status 0. -/
def execute_playbook (fs : FS) (st : UberScript) (argv0 : String)
    (runnerStatus : Int) : List Event × Except PyErr Bool :=
  match check_playbook fs st.playbook with
  | Except.error e => ([], Except.error e)
  | Except.ok _ =>
    ([Event.handoff (get_playbook_variables st argv0)],
     Except.ok (runnerStatus == 0))

/-- UberScript.auto (src/uberscript/uberscript.py lines 90-98) with
root=True: become_root, then parse_args, then execute_playbook, each
failure terminating the invocation; the returned trace concatenates the
events of the phases that ran. -/
def run_auto (playbook : String) (parameters : List Param) (argv0 : String)
    (becomeRootResult : Except String String) (tokens : List (String × String))
    (fs : FS) (runnerStatus : Int) : List Event × Except PyErr Bool :=
  match auto_elevate (UberScript.init playbook parameters) becomeRootResult with
  | Except.error e => ([], Except.error e)
  | Except.ok st1 =>
    let p := parse_args_model parameters tokens
    match p.2 with
    | Except.error e => (p.1, Except.error e)
    | Except.ok ns =>
      let ex := execute_playbook fs { st1 with parsed_args := ns } argv0 runnerStatus
      (p.1 ++ ex.1, ex.2)

/-- The source-level condition under which _check_arg_dependencies treats a
parameter as a violated dependency: it declares `depends`, its own parsed
attribute is truthy, and the depended-upon attribute is not. -/
def dep_violated (args : List (String × PyVal)) (t : Param) : Bool :=
  match (t.2.2).depends with
  | some dep => (getattr_model args t.1).truthy && !(getattr_model args dep).truthy
  | Option.none => false

/-- A filesystem in which /pb is a symbolic link to the regular file /real,
/dir is a directory and /broken is a dangling symbolic link. -/
def C1fs : FS :=
  ⟨[("/pb", FSNode.symlink "/real"), ("/real", FSNode.file),
    ("/dir", FSNode.dir), ("/broken", FSNode.symlink "/gone")]⟩

/-- A domain with one 64-character label. -/
def d64 : String := String.mk (List.replicate 64 'a') ++ ".com"

/-- A 63-character label. -/
def lbl63 : String := String.mk (List.replicate 63 'a')

/-- A 259-character domain all of whose labels are within the 63-character
limit. -/
def d259 : String := lbl63 ++ "." ++ lbl63 ++ "." ++ lbl63 ++ "." ++ lbl63 ++ ".com"

/-- A registry with a single required domain-typed parameter --host (-h). -/
def hostParams : List Param :=
  [("host", "h", { type := some (PyType.domainValidator false), required := true })]

/-- The spec of --foo, an integer parameter depending on --bar. -/
def fooSpec : ParamSpec :=
  { type := some (PyType.intValidator Option.none Option.none),
    depends := some "bar" }

/-- The spec of --bar, a bounded-string parameter. -/
def barSpec : ParamSpec :=
  { type := some (PyType.validator ['a', 'b', 'c', 'v', 'l', '2']
      (some 1) (some 255)) }

/-- A registry in which --foo (-f) depends on --bar (-b). -/
def depParams : List Param := [("foo", "f", fooSpec), ("bar", "b", barSpec)]

/-- A registry whose single parameter --foo (-f) declares a dependency on a
long name matching no registered parameter. -/
def crashParams : List Param :=
  [("foo", "f", { type := some (PyType.intValidator Option.none Option.none),
                  depends := some "nosuch" })]

/-- A filesystem in which /pb is a regular file. -/
def pbFS : FS := ⟨[("/pb", FSNode.file)]⟩

/-- C1: the claim says every symbolic-link playbook path is rejected with
InvalidArtifact before the runner is invoked, even a link resolving to an
existing regular file.  The code checks os.path.isfile, which FOLLOWS
symbolic links, so the symlink /pb -> /real (a regular file) passes
_check_playbook and the runner is invoked — contradicting the claim and
the code's own error message "playbook must exist and must not be a
link".  The remaining conjuncts evaluate the cases the code does reject:
empty, relative, non-existent, directory and dangling-link paths. -/
theorem C1_code_evaluation :
    islink C1fs "/pb" = true ∧
    check_playbook C1fs "/pb" = Except.ok () ∧
    execute_playbook C1fs { playbook := "/pb", parameters := [] } "s" 0 =
      ([Event.handoff [("scriptname", PyVal.str "s")]], Except.ok true) ∧
    check_playbook C1fs "" = Except.error (PyErr.valueError "no playbook given") ∧
    check_playbook C1fs "rel/pb" =
      Except.error (PyErr.valueError "path to playbook must be absolute") ∧
    check_playbook C1fs "/missing" =
      Except.error (PyErr.valueError "playbook must exist and must not be a link") ∧
    check_playbook C1fs "/dir" =
      Except.error (PyErr.valueError "playbook must exist and must not be a link") ∧
    check_playbook C1fs "/broken" =
      Except.error (PyErr.valueError "playbook must exist and must not be a link") :=
  ⟨rfl, rfl, rfl, rfl, rfl, rfl, rfl, rfl⟩

/-- C3: the claim says any string containing a character outside the class
is rejected, including one whose only offending character is a trailing
newline.  With the class reduced to the single character a and default
bounds, the code ACCEPTS the string aa-newline and returns it unchanged,
because Python's dollar anchor also matches just before a trailing
newline.  The remaining conjuncts evaluate the behaviours the claim gets
right: acceptance of an all-allowed string, rejection on a non-newline
foreign character, and rejection on either length bound. -/
theorem C3_code_evaluation :
    restricted_str_call ['a'] (some 1) (some 255) "aa\n" = Except.ok "aa\n" ∧
    restricted_str_call ['a'] (some 1) (some 255) "aa" = Except.ok "aa" ∧
    restricted_str_call ['a'] (some 1) (some 255) "ab" =
      Except.error (PyErr.valueError "invalid value") ∧
    restricted_str_call ['a'] (some 1) (some 255) "" =
      Except.error (PyErr.valueError "string is too short (must be >= 1)") ∧
    restricted_str_call ['a'] (some 1) (some 2) "aaa" =
      Except.error (PyErr.valueError "string is too long (must be <= 2)") :=
  ⟨rfl, rfl, rfl, rfl, rfl⟩

/-- C4: the claim says non-numeric text fails with the validator's own
"invalid integer" message.  int("abc") raises ValueError, but the code's
except clause catches only TypeError, so Python's own coercion error
propagates instead; the "invalid integer" branch fires only for a
TypeError such as int(None).  The last conjunct records that the two
messages differ. -/
theorem C4_code_evaluation :
    restricted_int_call Option.none Option.none (PyVal.str "abc") =
      Except.error (PyErr.valueError
        "invalid literal for int() with base 10: \x27abc\x27") ∧
    restricted_int_call Option.none Option.none PyVal.pyNone =
      Except.error (PyErr.valueError "invalid integer") ∧
    ("invalid literal for int() with base 10: \x27abc\x27" = "invalid integer") = False :=
  ⟨rfl, rfl, by simp⟩

/-- C5: the Domain validator is a round-trip on valid input — validating
example.com returns it unchanged, and with wildcard mode enabled
validating *.example.com returns the wildcard-prefixed string unchanged.
The final conjunct shows the un-stripped value does NOT match the shape
regex, so the success of the wildcard case can only come from running the
length/shape/suffix checks against the stripped value example.com. -/
theorem C5_domain_roundtrip :
    domain_call false "example.com" = Except.ok "example.com" ∧
    domain_call true "*.example.com" = Except.ok "*.example.com" ∧
    domainRegexMatch (String.data "*.example.com") = false :=
  ⟨rfl, rfl, rfl⟩

/-- C6: the Domain validator rejects each listed input with a validation
failure: a 64-character label and consecutive dots are rejected by the
idna encoding step with UnicodeError (a ValueError subclass), a
259-character domain by the total-length check, an unrecognized top-level
label by the public-suffix check, and a wildcard string with wildcard
mode disabled by the shape regex. -/
theorem C6_domain_rejections :
    domain_call false d64 = Except.error (PyErr.unicodeError "label empty or too long") ∧
    domain_call false d259 = Except.error (PyErr.valueError "domain too long") ∧
    domain_call false "a..com" =
      Except.error (PyErr.unicodeError "label empty or too long") ∧
    domain_call false "example.invalidtld" =
      Except.error (PyErr.valueError "invalid domain suffix") ∧
    domain_call false "*.example.com" =
      Except.error (PyErr.valueError "invalid domain") :=
  ⟨rfl, rfl, rfl, rfl, rfl⟩

/-- C7 counterexample: with --foo depending on --bar, a parsed value of 0
for foo is present and differs from the default None, and bar is absent,
so the claim requires the dependency check to fail; the code tests Python
truthiness, 0 is falsy, and the check succeeds. -/
theorem C7_counterexample :
    check_arg_dependencies depParams [("foo", PyVal.int 0), ("bar", PyVal.pyNone)] =
      Except.ok () ∧
    getattr_model [("foo", PyVal.int 0), ("bar", PyVal.pyNone)] "foo" = PyVal.int 0 ∧
    (PyVal.int 0 = PyVal.pyNone) = False :=
  ⟨rfl, rfl, by simp⟩

/-- C10: parameter lookup returns the first descriptor in registry order
whose long or short name equals the query (and nothing when none
matches); consequently, when a parameter's depends names a long name
matching no descriptor and its dependency is violated, the error path
crashes with a TypeError while subscripting the None lookup result,
instead of producing the usage error. -/
theorem C10_lookup_and_crash :
    (∀ (parameters : List Param) (fname : String),
      find_param parameters fname =
        parameters.find? (fun t => t.1 == fname || (t.2.1 : String) == fname)) ∧
    (∀ (name short : String) (spec : ParamSpec) (rest : List Param)
        (args : List (String × PyVal)) (dep : String),
      spec.depends = some dep →
      (getattr_model args name).truthy = true →
      (getattr_model args dep).truthy = false →
      find_param ((name, short, spec) :: rest) dep = Option.none →
      check_arg_dependencies ((name, short, spec) :: rest) args =
        Except.error (PyErr.typeError
          "\x27NoneType\x27 object has no attribute \x27__getitem__\x27")) := by
  constructor
  · intro parameters fname
    induction parameters with
    | nil => rfl
    | cons t rest ih =>
      obtain ⟨name, short, spec⟩ := t
      simp only [find_param, List.find?]
      by_cases h : (name == fname || short == fname) = true
      · rw [if_pos h, h]
      · rw [if_neg h, Bool.not_eq_true] at *
        rw [h, ih]
  · intro name short spec rest args dep h1 h2 h3 h4
    simp only [check_arg_dependencies, check_deps_aux, h1, h2, h3, h4,
      Bool.not_false, Bool.and_self, if_true]

/-- Witness for C10_lookup_and_crash: a registry whose only parameter
depends on the unregistered long name nosuch, with foo parsed to a truthy
value, crashes the dependency check. -/
theorem C10_lookup_and_crash_witness :
    check_arg_dependencies crashParams [("foo", PyVal.str "x")] =
      Except.error (PyErr.typeError
        "\x27NoneType\x27 object has no attribute \x27__getitem__\x27") :=
  C10_lookup_and_crash.2 "foo" "f"
    { type := some (PyType.intValidator Option.none Option.none),
      depends := some "nosuch" }
    [] [("foo", PyVal.str "x")] "nosuch" rfl rfl rfl rfl

/-- C9: building the argument surface raises the unconstrained-string error
exactly when some descriptor both stores a value (its action, defaulting
to store, is not a constant/flag action) and has a missing or native
str/unicode type; in particular registries whose string parameters all
use a restricted_str-style validator build successfully. -/
theorem C9_unconstrained_string_check (parameters : List Param) :
    build_argparser parameters =
        Except.error (PyErr.valueError
          "restricted_str must be used for all string arguments") ↔
      ∃ t ∈ parameters,
        ((t.2.2 : ParamSpec).type = Option.none ∨
         (t.2.2 : ParamSpec).type = some PyType.str ∨
         (t.2.2 : ParamSpec).type = some PyType.unicode) ∧
        ¬ ((t.2.2 : ParamSpec).action.getD "store") ∈ flagActions := by
  induction parameters with
  | nil => simp [build_argparser]
  | cons t rest ih =>
    obtain ⟨name, short, spec⟩ := t
    have hb : ((spec.type == Option.none || spec.type == some PyType.str
        || spec.type == some PyType.unicode)
        && !flagActions.contains (spec.action.getD "store")) = true ↔
        ((spec.type = Option.none ∨ spec.type = some PyType.str ∨
          spec.type = some PyType.unicode) ∧
         ¬ (spec.action.getD "store") ∈ flagActions) := by
      simp [List.elem_iff, or_assoc]
    simp only [build_argparser]
    by_cases h : ((spec.type = Option.none ∨ spec.type = some PyType.str ∨
          spec.type = some PyType.unicode) ∧
         ¬ (spec.action.getD "store") ∈ flagActions)
    · rw [if_pos (hb.mpr h)]
      simp only [true_iff]
      exact ⟨(name, short, spec), List.mem_cons_self _ _, h⟩
    · rw [if_neg (fun hc => h (hb.mp hc))]
      rw [ih]
      constructor
      · rintro ⟨u, hu, hprop⟩
        exact ⟨u, List.mem_cons_of_mem _ hu, hprop⟩
      · rintro ⟨u, hu, hprop⟩
        rcases List.mem_cons.mp hu with rfl | hu2
        · exact absurd hprop h
        · exact ⟨u, hu2, hprop⟩

/-- A parameter whose dependency condition does not fire is skipped by the
dependency-check loop. -/
theorem check_deps_aux_skip (all : List Param) (args : List (String × PyVal))
    (name short : String) (spec : ParamSpec) (ps : List Param)
    (h : dep_violated args (name, short, spec) = false) :
    check_deps_aux all args ((name, short, spec) :: ps) =
      check_deps_aux all args ps := by
  cases hd : spec.depends with
  | none => simp [check_deps_aux, hd]
  | some dep =>
    have h2 : ((getattr_model args name).truthy
        && !(getattr_model args dep).truthy) = false := by
      simpa [dep_violated, hd] using h
    simp [check_deps_aux, hd, h2]

/-- When no parameter's dependency condition fires, the loop returns ok. -/
theorem check_deps_aux_ok (all : List Param) (args : List (String × PyVal)) :
    ∀ ps : List Param, (∀ t ∈ ps, dep_violated args t = false) →
      check_deps_aux all args ps = Except.ok () := by
  intro ps
  induction ps with
  | nil => intro _; rfl
  | cons t rest ih =>
    intro h
    obtain ⟨name, short, spec⟩ := t
    rw [check_deps_aux_skip all args name short spec rest
      (h _ (List.mem_cons_self _ _))]
    exact ih (fun u hu => h u (List.mem_cons_of_mem _ hu))

/-- C7 amended: the dependency check keys on Python truthiness, not
presence.  It succeeds when no parameter both declares depends, has a
truthy parsed value, and sees a non-truthy depended-upon value; and for
the first parameter (in registry order) whose dependency condition fires,
it fails with the usage error naming the dependent parameter's long and
short flags and the depended-upon parameter's long name and looked-up
short flag.  A present but falsy value (such as the integer 0) does not
trigger the check. -/
theorem C7_amended (parameters : List Param) (args : List (String × PyVal)) :
    ((∀ t ∈ parameters, dep_violated args t = false) →
      check_arg_dependencies parameters args = Except.ok ()) ∧
    (∀ (pre : List Param) (name short : String) (spec : ParamSpec)
        (post : List Param) (dep dname dshort : String) (dspec : ParamSpec),
      parameters = pre ++ (name, short, spec) :: post →
      (∀ t ∈ pre, dep_violated args t = false) →
      spec.depends = some dep →
      (getattr_model args name).truthy = true →
      (getattr_model args dep).truthy = false →
      find_param parameters dep = some (dname, dshort, dspec) →
      check_arg_dependencies parameters args =
        Except.error (PyErr.systemExit
          ("argument --" ++ name ++ " (-" ++ short ++ ") requires --" ++ dep
            ++ " (-" ++ dshort ++ ") to be present."))) := by
  constructor
  · intro h
    exact check_deps_aux_ok parameters args parameters h
  · intro pre name short spec post dep dname dshort dspec hsplit hpre h1 h2 h3 hf
    subst hsplit
    unfold check_arg_dependencies
    have skip : ∀ qs : List Param, (∀ t ∈ qs, dep_violated args t = false) →
        check_deps_aux (pre ++ (name, short, spec) :: post) args
          (qs ++ (name, short, spec) :: post) =
        check_deps_aux (pre ++ (name, short, spec) :: post) args
          ((name, short, spec) :: post) := by
      intro qs
      induction qs with
      | nil => intro _; rfl
      | cons u us ihq =>
        intro hqs
        obtain ⟨un, ushort, uspec⟩ := u
        rw [List.cons_append, check_deps_aux_skip _ args un ushort uspec _
          (hqs _ (List.mem_cons_self _ _))]
        exact ihq (fun v hv => hqs v (List.mem_cons_of_mem _ hv))
    rw [skip pre hpre]
    simp [check_deps_aux, h1, h2, h3, hf]

/-- Witness for C7_amended: with --foo truthy and --bar absent the check
fails with the two-flag usage message; with both truthy it succeeds. -/
theorem C7_amended_witness :
    check_arg_dependencies depParams
        [("foo", PyVal.str "val"), ("bar", PyVal.pyNone)] =
      Except.error (PyErr.systemExit
        "argument --foo (-f) requires --bar (-b) to be present.") ∧
    check_arg_dependencies depParams
        [("foo", PyVal.str "val"), ("bar", PyVal.str "val2")] =
      Except.ok () := by
  constructor
  · exact (C7_amended depParams _).2 [] "foo" "f" fooSpec [("bar", "b", barSpec)]
      "bar" "bar" "b" barSpec rfl (by intro t ht; cases ht) rfl rfl rfl rfl
  · exact (C7_amended depParams _).1 (by decide)

/-- Every event that argparse parsing emits is a validator run. -/
theorem parse_tokens_events_validate (parameters : List Param) :
    ∀ (toks : List (String × String)) (ns : List (String × PyVal)) (e : Event),
      e ∈ (parse_tokens parameters toks ns).1 → e.isValidate = true := by
  intro toks
  induction toks with
  | nil =>
    intro ns e h
    simp [parse_tokens] at h
  | cons t rest ih =>
    intro ns e h
    obtain ⟨fname, raw⟩ := t
    simp only [parse_tokens] at h
    split at h
    · exact ih _ _ h
    · split at h
      · simp at h
      · split at h
        · exact ih _ _ h
        · split at h
          · split at h
            · simp only [List.mem_cons] at h
              rcases h with rfl | h
              · rfl
              · exact ih _ _ h
            · simp at h
              subst h
              rfl
          · exact ih _ _ h

/-- A failed validator run is the last event parsing emits: parsing aborts
at the first failure. -/
theorem parse_tokens_fail_last (parameters : List Param) :
    ∀ (toks : List (String × String)) (ns : List (String × PyVal))
      (pre : List Event) (n : String) (post : List Event),
      (parse_tokens parameters toks ns).1 = pre ++ Event.validate n false :: post →
      post = [] := by
  intro toks
  induction toks with
  | nil =>
    intro ns pre n post h
    simp only [parse_tokens] at h
    have hlen := congrArg List.length h
    simp at hlen
    omega
  | cons t rest ih =>
    intro ns pre n post h
    obtain ⟨fname, raw⟩ := t
    simp only [parse_tokens] at h
    split at h
    · exact ih _ _ _ _ h
    · split at h
      · have hlen := congrArg List.length h
        simp at hlen
        omega
      · split at h
        · exact ih _ _ _ _ h
        · split at h
          · split at h
            · cases pre with
              | nil =>
                simp at h
              | cons a pre2 =>
                simp only [List.cons_append, List.cons.injEq] at h
                exact ih _ _ _ _ h.2
            · cases pre with
              | nil =>
                simp at h
                exact h.2
              | cons a pre2 =>
                simp only [List.cons_append, List.cons.injEq] at h
                have hlen := congrArg List.length h.2
                simp at hlen
                omega
          · exact ih _ _ _ _ h

/-- When parsing succeeds, no failed validator run appears in its events. -/
theorem parse_tokens_ok_no_fail (parameters : List Param) :
    ∀ (toks : List (String × String)) (ns ns2 : List (String × PyVal)),
      (parse_tokens parameters toks ns).2 = Except.ok ns2 →
      ∀ n, Event.validate n false ∉ (parse_tokens parameters toks ns).1 := by
  intro toks
  induction toks with
  | nil =>
    intro ns ns2 _ n h
    simp [parse_tokens] at h
  | cons t rest ih =>
    intro ns ns2 hok n h
    obtain ⟨fname, raw⟩ := t
    simp only [parse_tokens] at hok h
    split at hok <;> rename_i heq0
    · rw [if_pos heq0] at h
      exact ih _ _ hok n h
    · rw [if_neg heq0] at h
      split at hok <;> rename_i heq
      · simp at hok
      · split at hok <;> rename_i heq2
        · have hm := List.elem_iff.mp heq2
          simp [heq] at h
          rw [if_pos hm] at h
          exact ih _ _ hok n h
        · have hm : ¬ (_ ∈ flagActions) := fun hmem => heq2 (List.elem_iff.mpr hmem)
          split at hok <;> rename_i heq3
          · split at hok <;> rename_i heq4
            · simp [heq, heq3, heq4] at h
              rw [if_neg hm] at h
              simp at h
              exact ih _ _ hok n h
            · simp at hok
          · simp [heq, heq3] at h
            rw [if_neg hm] at h
            exact ih _ _ hok n h

/-- C8: the phases of one auto invocation run in strict order.  The event
trace is a block of validator runs, optionally followed by one
dependency-check event, with the handoff event possible only after a
successful dependency check; a failed validator run is always the last
event (parsing aborts at the first failure); and whenever the invocation
terminates with an error, no handoff event occurred — no partially
validated parameter set ever reaches the runner. -/
theorem C8_phase_order (playbook : String) (parameters : List Param)
    (argv0 : String) (becomeRootResult : Except String String)
    (tokens : List (String × String)) (fs : FS) (runnerStatus : Int)
    (evs : List Event) (r : Except PyErr Bool)
    (hrun : run_auto playbook parameters argv0 becomeRootResult tokens fs
      runnerStatus = (evs, r)) :
    (∃ evsV, (∀ e ∈ evsV, e.isValidate = true) ∧
      (evs = evsV ∨ (∃ b, evs = evsV ++ [Event.depCheck b]) ∨
       (∃ vs, evs = evsV ++ [Event.depCheck true, Event.handoff vs]))) ∧
    (∀ (pre : List Event) (n : String) (post : List Event),
      evs = pre ++ Event.validate n false :: post → post = []) ∧
    (∀ e, r = Except.error e → ∀ vs, Event.handoff vs ∉ evs) := by
  cases becomeRootResult with
  | error m =>
    simp [run_auto, auto_elevate] at hrun
    obtain ⟨h1, h2⟩ := hrun
    subst h1
    subst h2
    refine ⟨⟨[], by simp, Or.inl rfl⟩, ?_, ?_⟩
    · intro pre n post h
      have hlen := congrArg List.length h
      simp at hlen
      omega
    · intro e _ vs hv2
      simp at hv2
  | ok u =>
    cases hb : build_argparser parameters with
    | error e0 =>
      simp [run_auto, auto_elevate, parse_args_model, hb] at hrun
      obtain ⟨h1, h2⟩ := hrun
      subst h1
      subst h2
      refine ⟨⟨[], by simp, Or.inl rfl⟩, ?_, ?_⟩
      · intro pre n post h
        have hlen := congrArg List.length h
        simp at hlen
        omega
      · intro e _ vs hv2
        simp at hv2
    | ok v0 =>
      rcases hq : parse_tokens parameters tokens (initial_namespace parameters)
        with ⟨qevs, qr⟩
      have hv : ∀ e ∈ qevs, e.isValidate = true := by
        have hvv := parse_tokens_events_validate parameters tokens
          (initial_namespace parameters)
        rw [hq] at hvv
        exact hvv
      have hfl : ∀ (pre : List Event) (n : String) (post : List Event),
          qevs = pre ++ Event.validate n false :: post → post = [] := by
        have hff := parse_tokens_fail_last parameters tokens
          (initial_namespace parameters)
        rw [hq] at hff
        exact hff
      cases qr with
      | error e1 =>
        simp [run_auto, auto_elevate, parse_args_model, hb, hq] at hrun
        obtain ⟨h1, h2⟩ := hrun
        subst h1
        subst h2
        refine ⟨⟨qevs, hv, Or.inl rfl⟩, hfl, ?_⟩
        intro e _ vs hv2
        have := hv _ hv2
        simp [Event.isValidate] at this
      | ok ns =>
        have hnf : ∀ n, Event.validate n false ∉ qevs := by
          have hnn := parse_tokens_ok_no_fail parameters tokens
            (initial_namespace parameters)
          rw [hq] at hnn
          exact fun n => hnn ns rfl n
        cases hd : check_arg_dependencies parameters ns with
        | error e2 =>
          simp [run_auto, auto_elevate, parse_args_model, hb, hq, hd] at hrun
          obtain ⟨h1, h2⟩ := hrun
          subst h1
          subst h2
          refine ⟨⟨qevs, hv, Or.inr (Or.inl ⟨false, rfl⟩)⟩, ?_, ?_⟩
          · intro pre n post h
            have hmem : Event.validate n false ∈ qevs ++ [Event.depCheck false] := by
              rw [h]
              exact List.mem_append.mpr (Or.inr (List.mem_cons_self _ _))
            rcases List.mem_append.mp hmem with hin | hin
            · exact absurd hin (hnf n)
            · simp at hin
          · intro e _ vs hv2
            rcases List.mem_append.mp hv2 with hin | hin
            · have := hv _ hin
              simp [Event.isValidate] at this
            · simp at hin
        | ok v1 =>
          cases hc : check_playbook fs playbook with
          | error e3 =>
            simp [run_auto, auto_elevate, parse_args_model, execute_playbook,
              UberScript.init, hb, hq, hd, hc] at hrun
            obtain ⟨h1, h2⟩ := hrun
            subst h1
            subst h2
            refine ⟨⟨qevs, hv, Or.inr (Or.inl ⟨true, rfl⟩)⟩, ?_, ?_⟩
            · intro pre n post h
              have hmem : Event.validate n false ∈ qevs ++ [Event.depCheck true] := by
                rw [h]
                exact List.mem_append.mpr (Or.inr (List.mem_cons_self _ _))
              rcases List.mem_append.mp hmem with hin | hin
              · exact absurd hin (hnf n)
              · simp at hin
            · intro e _ vs hv2
              rcases List.mem_append.mp hv2 with hin | hin
              · have := hv _ hin
                simp [Event.isValidate] at this
              · simp at hin
          | ok v2 =>
            simp [run_auto, auto_elevate, parse_args_model, execute_playbook,
              UberScript.init, hb, hq, hd, hc] at hrun
            obtain ⟨h1, h2⟩ := hrun
            subst h1
            subst h2
            refine ⟨⟨qevs, hv, Or.inr (Or.inr ⟨_, rfl⟩)⟩, ?_, ?_⟩
            · intro pre n post h
              have hmem : Event.validate n false ∈
                  qevs ++ [Event.depCheck true, Event.handoff
                    (get_playbook_variables
                      { playbook := playbook, parameters := parameters,
                        success_msg := "executed successfully",
                        sudouser := Option.none, sudo_user := some u,
                        parsed_args := ns } argv0)] := by
                rw [h]
                exact List.mem_append.mpr (Or.inr (List.mem_cons_self _ _))
              rcases List.mem_append.mp hmem with hin | hin
              · exact absurd hin (hnf n)
              · simp at hin
            · intro e he vs hv2
              simp at he

/-- Witness for C8_phase_order at a concrete invocation whose domain
validator fails: the trace is the single failed-validator event and the
handoff to the runner never happens. -/
theorem C8_phase_order_witness :
    Event.handoff [] ∉
      (run_auto "/pb" hostParams "s" (Except.ok "alice") [("host", "a..b")]
        pbFS 0).1 := by
  have h := C8_phase_order "/pb" hostParams "s" (Except.ok "alice")
    [("host", "a..b")] pbFS 0 [Event.validate "host" false]
    (Except.error (PyErr.systemExit "argument --host: invalid value: a..b")) rfl
  exact h.2.2 (PyErr.systemExit "argument --host: invalid value: a..b") rfl []
